import Mathlib

/-!
Shallow embedding of the research-approval workflow of
`src/backend/research_agent.py` (class `ResearchAgent`, dataclass
`ResearchRequest`, enum `ResearchStatus`).

Modelling conventions:
* Python `datetime.now()` values are modelled as `Nat` timestamps passed
  explicitly to each operation (`now : Nat`); `timedelta.total_seconds()`
  becomes integer subtraction.
* The Python `dict` registry `pending_requests` is an association list with
  Python-dict semantics: updating an existing key keeps its position, a new
  key is appended, `values()` iterates in insertion order.
* `uuid.uuid4()` is modelled by passing the generated id as an argument.
* The single HTTP call made by `_conduct_research` is modelled by an
  `ApiOutcome` argument describing what the remote endpoint did
  (200-response with content and usage, non-200 body, or a raised
  transport exception).
* Python `float` cost arithmetic is modelled over `ℚ` with the code's
  constants (`0.008` per 1000 tokens, 3 tokens per word).
* Raising `ValueError` is modelled by `Except String`.
-/

/-- Enum `ResearchStatus` of the source. -/
inductive ResearchStatus where
  | proposed
  | approved
  | denied
  | in_progress
  | completed
  | failed
deriving DecidableEq, Repr

/-- Python `str()` of a `ResearchStatus` member, as interpolated into the
`ValueError` message of `execute_approved_research`. -/
def ResearchStatus.pyStr : ResearchStatus → String
  | .proposed => "ResearchStatus.PROPOSED"
  | .approved => "ResearchStatus.APPROVED"
  | .denied => "ResearchStatus.DENIED"
  | .in_progress => "ResearchStatus.IN_PROGRESS"
  | .completed => "ResearchStatus.COMPLETED"
  | .failed => "ResearchStatus.FAILED"

/-- One advisor suggestion record `{advisor, suggestion}`. -/
structure Suggestion where
  advisor : String
  suggestion : String
deriving DecidableEq, Repr

/-- Token-usage accounting passed through from the remote API
(`result.get('usage', {})`); a JSON-object stand-in. -/
abbrev TokenUsage := List (String × Nat)

/-- The dict built by `_conduct_research` on a 200 response:
`{research, model_used, timestamp, tokens_used}`. -/
structure ResearchResults where
  research : String
  model_used : String
  timestamp : Nat
  tokens_used : TokenUsage
deriving DecidableEq, Repr

/-- The possible shapes of `ResearchRequest.results`. -/
inductive RequestResults where
  | research (r : ResearchResults)
  | error (msg : String)
  | denial_reason (reason : String)
deriving DecidableEq, Repr

/-- Dataclass `ResearchRequest`. -/
structure ResearchRequest where
  id : String
  query : String
  original_context : String
  advisor_suggestions : List Suggestion
  refined_query : Option String := none
  status : ResearchStatus := .proposed
  created_at : Nat
  approved_at : Option Nat := none
  completed_at : Option Nat := none
  results : Option RequestResults := none
  cost_estimate : Option ℚ := none
deriving DecidableEq, Repr

/-- Registry type: Python dict `str -> ResearchRequest` as an association
list with unique keys. -/
abbrev Registry := List (String × ResearchRequest)

/-- Python `d[k]` / `k in d` lookup: first matching key. -/
def dictGet : Registry → String → Option ResearchRequest
  | [], _ => none
  | (k, v) :: rest, key => if k = key then some v else dictGet rest key

/-- Python `d[k] = v`: replace in place if the key exists, else append. -/
def dictSet : Registry → String → ResearchRequest → Registry
  | [], key, v => [(key, v)]
  | (k, w) :: rest, key, v =>
    if k = key then (key, v) :: rest else (k, w) :: dictSet rest key v

/-- Class `ResearchAgent`: its configuration and the mutable registry. -/
structure ResearchAgent where
  api_key : String
  research_model : String := "openai/gpt-5-nano"
  cost_per_1k_tokens : ℚ := 0.008
  pending_requests : Registry := []
deriving DecidableEq, Repr

/-- Constructor `ResearchAgent.__init__(openrouter_api_key)`. -/
def ResearchAgent.init (openrouter_api_key : String) : ResearchAgent :=
  { api_key := openrouter_api_key }

/-- Python `s.split()` word count: split on whitespace runs, no empties. -/
def pyWordCount (s : String) : Nat :=
  ((s.split Char.isWhitespace).filter (fun w => w ≠ "")).length

/-- Method `ResearchAgent._refine_query_with_suggestions`: the returned string is
built from `query` and the suggestion texts only (the `refinement_prompt`
local that mentions `context` is discarded by the source). -/
def refine_query_with_suggestions (query : String) (context : String)
    (suggestions : List Suggestion) : String :=
  let _ := context
  let refined := query ++ "\n\nSpecific areas to investigate based on advisor input:\n"
  suggestions.foldl (fun acc s => acc ++ "- " ++ s.suggestion ++ "\n") refined

/-- Method `ResearchAgent.propose_research`; `request_id` stands for the
generated `uuid4` and `now` for `datetime.now()` at construction. -/
def propose_research (agent : ResearchAgent) (request_id : String) (now : Nat)
    (query : String) (context : String) (advisor_suggestions : List Suggestion) :
    ResearchAgent × ResearchRequest :=
  let refined_query := refine_query_with_suggestions query context advisor_suggestions
  let estimated_tokens : ℚ := (pyWordCount refined_query : ℚ) * 3
  let cost_estimate : ℚ := (estimated_tokens / 1000) * agent.cost_per_1k_tokens
  let request : ResearchRequest :=
    { id := request_id
      query := query
      original_context := context
      advisor_suggestions := advisor_suggestions
      refined_query := some refined_query
      status := .proposed
      created_at := now
      cost_estimate := some cost_estimate }
  ({ agent with pending_requests := dictSet agent.pending_requests request_id request },
   request)

/-- Method `ResearchAgent.approve_research`. -/
def approve_research (agent : ResearchAgent) (request_id : String) (now : Nat) :
    ResearchAgent × Bool :=
  match dictGet agent.pending_requests request_id with
  | none => (agent, false)
  | some request =>
    if request.status ≠ ResearchStatus.proposed then (agent, false)
    else
      let request' := { request with status := .approved, approved_at := some now }
      ({ agent with
          pending_requests := dictSet agent.pending_requests request_id request' },
       true)

/-- Method `ResearchAgent.deny_research`; `reason = some ""` is falsy in Python,
so it records no denial reason. -/
def deny_research (agent : ResearchAgent) (request_id : String)
    (reason : Option String) : ResearchAgent × Bool :=
  match dictGet agent.pending_requests request_id with
  | none => (agent, false)
  | some request =>
    if request.status ≠ ResearchStatus.proposed then (agent, false)
    else
      let request' :=
        { request with
            status := .denied
            results :=
              match reason with
              | some r => if r ≠ "" then some (.denial_reason r) else request.results
              | none => request.results }
      ({ agent with
          pending_requests := dictSet agent.pending_requests request_id request' },
       true)

/-- What the remote completion endpoint did on the one HTTP call of
`_conduct_research`. -/
inductive ApiOutcome where
  | ok (content : String) (usage : TokenUsage)
  | httpError (errorText : String)
  | transportError (msg : String)
deriving DecidableEq, Repr

/-- Method `ResearchAgent._conduct_research`: 200 yields the results dict, a
non-200 status raises `Exception("Research API error: ...")`, and a
transport failure propagates the library's exception. -/
def conduct_research (model : String) (now : Nat) (outcome : ApiOutcome) :
    Except String ResearchResults :=
  match outcome with
  | .ok content usage =>
    .ok { research := content
          model_used := model
          timestamp := now
          tokens_used := usage }
  | .httpError errorText => .error ("Research API error: " ++ errorText)
  | .transportError msg => .error msg

/-- The dict returned by `execute_approved_research`. -/
inductive ExecuteResponse where
  | success (request_id : String) (results : ResearchResults) (execution_time : Int)
  | failed (request_id : String) (error : String)
deriving DecidableEq, Repr

/-- Message of the `TypeError` Python raises when subtracting `None` from a
`datetime`; only reachable when a request is `approved` with no
`approved_at`, which the public API never produces. -/
def datetimeNoneSubMsg : String :=
  "unsupported operand type(s) for -: 'datetime.datetime' and 'NoneType'"

/-- Method `ResearchAgent.execute_approved_research`. `Except.error` models the
two `ValueError` raises (which leave the registry untouched); the `try`
block's exception handler turns a completion failure into a
`failed`-status result. In the unreachable `approved_at = none` corner the
source would set `status/completed_at/results` for success, then hit a
`TypeError` computing `execution_time`, caught by the same handler. -/
def execute_approved_research (agent : ResearchAgent) (request_id : String)
    (now : Nat) (outcome : ApiOutcome) :
    Except String (ResearchAgent × ExecuteResponse) :=
  match dictGet agent.pending_requests request_id with
  | none => .error ("Request " ++ request_id ++ " not found")
  | some request =>
    if request.status ≠ ResearchStatus.approved then
      .error ("Request " ++ request_id ++ " is not approved. Status: "
              ++ request.status.pyStr)
    else
      match conduct_research agent.research_model now outcome with
      | .ok research_results =>
        match request.approved_at with
        | some a =>
          let request' :=
            { request with
                status := .completed
                completed_at := some now
                results := some (.research research_results) }
          .ok ({ agent with
                  pending_requests := dictSet agent.pending_requests request_id request' },
               .success request_id research_results ((now : Int) - (a : Int)))
        | none =>
          let request' :=
            { request with
                status := .failed
                completed_at := some now
                results := some (.error datetimeNoneSubMsg) }
          .ok ({ agent with
                  pending_requests := dictSet agent.pending_requests request_id request' },
               .failed request_id datetimeNoneSubMsg)
      | .error e =>
        let request' :=
          { request with status := .failed, results := some (.error e) }
        .ok ({ agent with
                pending_requests := dictSet agent.pending_requests request_id request' },
             .failed request_id e)

/-- Method `ResearchAgent.get_pending_requests`. -/
def get_pending_requests (agent : ResearchAgent) : List ResearchRequest :=
  (agent.pending_requests.map Prod.snd).filter
    (fun req => req.status = ResearchStatus.proposed)

/-- Method `ResearchAgent.get_request_status`. -/
def get_request_status (agent : ResearchAgent) (request_id : String) :
    Option ResearchRequest :=
  dictGet agent.pending_requests request_id

/-- One invocation of a mutating operation, with its modelled
environment inputs (timestamps, generated id, API outcome). -/
inductive AgentOp where
  | propose (request_id : String) (now : Nat) (query : String) (context : String)
      (suggestions : List Suggestion)
  | approve (request_id : String) (now : Nat)
  | deny (request_id : String) (reason : Option String)
  | execute (request_id : String) (now : Nat) (outcome : ApiOutcome)
deriving Repr

/-- Effect of one operation on the agent state; a raised `ValueError`
propagates to the caller and leaves the registry unchanged. -/
def applyOp (agent : ResearchAgent) : AgentOp → ResearchAgent
  | .propose rid now q c s => (propose_research agent rid now q c s).1
  | .approve rid now => (approve_research agent rid now).1
  | .deny rid reason => (deny_research agent rid reason).1
  | .execute rid now outcome =>
    match execute_approved_research agent rid now outcome with
    | .ok (agent', _) => agent'
    | .error _ => agent

/-- Run a sequence of operations. -/
def runOps (agent : ResearchAgent) (ops : List AgentOp) : ResearchAgent :=
  ops.foldl applyOp agent

/-- An operation is admissible in a state when it is not a `propose`, or it
is a `propose` whose generated id is not already in the registry (the
`uuid4` freshness assumption). -/
def opFresh (agent : ResearchAgent) : AgentOp → Prop
  | .propose rid _ _ _ _ => dictGet agent.pending_requests rid = none
  | _ => True

/-- Each `propose` in the sequence uses an id not already in the registry
at its point of execution. -/
def FreshProposals : ResearchAgent → List AgentOp → Prop
  | _, [] => True
  | agent, op :: rest => opFresh agent op ∧ FreshProposals (applyOp agent op) rest

/-- Whether an operation is a `propose`. -/
def AgentOp.isPropose : AgentOp → Bool
  | .propose _ _ _ _ _ => true
  | _ => false

/-- The edges of the §4.1 transition graph. -/
inductive StatusStep : ResearchStatus → ResearchStatus → Prop where
  | approve : StatusStep .proposed .approved
  | deny : StatusStep .proposed .denied
  | start : StatusStep .approved .in_progress
  | complete : StatusStep .in_progress .completed
  | fail : StatusStep .in_progress .failed

/-- Reachability along the transition graph (zero or more edges). -/
def StatusReach : ResearchStatus → ResearchStatus → Prop :=
  Relation.ReflTransGen StatusStep

/-- The bulleted list `_refine_query_with_suggestions` appends after the
fixed header line: one `- <suggestion>\n` item per suggestion, in order. -/
def bulletList : List Suggestion → String
  | [] => ""
  | s :: rest => "- " ++ s.suggestion ++ "\n" ++ bulletList rest

/-- The fields set at proposal time agree between two requests; the frame
that `approve`/`deny`/`execute` must preserve. -/
def SameProposalFields (r r' : ResearchRequest) : Prop :=
  r'.id = r.id ∧ r'.query = r.query ∧ r'.original_context = r.original_context ∧
  r'.advisor_suggestions = r.advisor_suggestions ∧
  r'.refined_query = r.refined_query ∧ r'.created_at = r.created_at ∧
  r'.cost_estimate = r.cost_estimate

/-- Substring containment: `t` occurs somewhere inside `s`. -/
def ContainsText (s t : String) : Prop :=
  ∃ l r : String, s = l ++ t ++ r

theorem dictGet_set_self (d : Registry) (k : String) (v : ResearchRequest) :
    dictGet (dictSet d k v) k = some v := by
  induction d with
  | nil => simp [dictGet, dictSet]
  | cons p rest ih =>
    obtain ⟨k', w⟩ := p
    by_cases h : k' = k
    · simp [dictGet, dictSet, h]
    · simp [dictGet, dictSet, if_neg h, ih]

theorem dictGet_set_ne (d : Registry) (k key : String) (v : ResearchRequest)
    (h : key ≠ k) : dictGet (dictSet d k v) key = dictGet d key := by
  induction d with
  | nil => simp [dictGet, dictSet, if_neg (Ne.symm h)]
  | cons p rest ih =>
    obtain ⟨k', w⟩ := p
    by_cases hk : k' = k
    · subst hk
      simp [dictGet, dictSet, if_neg (Ne.symm h)]
    · by_cases hkey : k' = key
      · subst hkey
        simp [dictGet, dictSet, if_neg hk]
      · simp [dictGet, dictSet, if_neg hk, if_neg hkey, ih]

theorem approve_get_none (a : ResearchAgent) (rid : String) (t : Nat)
    (h : dictGet a.pending_requests rid = none) :
    approve_research a rid t = (a, false) := by
  simp [approve_research, h]

theorem approve_wrong_state (a : ResearchAgent) (rid : String) (t : Nat)
    (r : ResearchRequest) (h : dictGet a.pending_requests rid = some r)
    (hs : r.status ≠ ResearchStatus.proposed) :
    approve_research a rid t = (a, false) := by
  simp [approve_research, h, hs]

theorem approve_proposed (a : ResearchAgent) (rid : String) (t : Nat)
    (r : ResearchRequest) (h : dictGet a.pending_requests rid = some r)
    (hs : r.status = ResearchStatus.proposed) :
    approve_research a rid t =
      ({ a with pending_requests := dictSet a.pending_requests rid
                  { r with status := .approved, approved_at := some t } }, true) := by
  simp [approve_research, h, hs]

theorem deny_get_none (a : ResearchAgent) (rid : String) (reason : Option String)
    (h : dictGet a.pending_requests rid = none) :
    deny_research a rid reason = (a, false) := by
  simp [deny_research, h]

theorem deny_wrong_state (a : ResearchAgent) (rid : String) (reason : Option String)
    (r : ResearchRequest) (h : dictGet a.pending_requests rid = some r)
    (hs : r.status ≠ ResearchStatus.proposed) :
    deny_research a rid reason = (a, false) := by
  simp [deny_research, h, hs]

theorem deny_proposed (a : ResearchAgent) (rid : String) (reason : Option String)
    (r : ResearchRequest) (h : dictGet a.pending_requests rid = some r)
    (hs : r.status = ResearchStatus.proposed) :
    ∃ res : Option RequestResults,
      deny_research a rid reason =
        ({ a with pending_requests := dictSet a.pending_requests rid
                      { r with status := .denied, results := res } }, true) := by
  refine ⟨match reason with
          | some s => if s ≠ "" then some (.denial_reason s) else r.results
          | none => r.results, ?_⟩
  simp [deny_research, h, hs]

theorem execute_get_none (a : ResearchAgent) (rid : String) (t : Nat)
    (outcome : ApiOutcome) (h : dictGet a.pending_requests rid = none) :
    execute_approved_research a rid t outcome =
      .error ("Request " ++ rid ++ " not found") := by
  simp [execute_approved_research, h]

theorem execute_wrong_state (a : ResearchAgent) (rid : String) (t : Nat)
    (outcome : ApiOutcome) (r : ResearchRequest)
    (h : dictGet a.pending_requests rid = some r)
    (hs : r.status ≠ ResearchStatus.approved) :
    execute_approved_research a rid t outcome =
      .error ("Request " ++ rid ++ " is not approved. Status: "
              ++ r.status.pyStr) := by
  simp [execute_approved_research, h, hs]

theorem execute_success (a : ResearchAgent) (rid : String) (t ta : Nat)
    (content : String) (usage : TokenUsage) (r : ResearchRequest)
    (h : dictGet a.pending_requests rid = some r)
    (hs : r.status = ResearchStatus.approved)
    (ha : r.approved_at = some ta) :
    execute_approved_research a rid t (.ok content usage) =
      .ok ({ a with pending_requests := dictSet a.pending_requests rid
                       { r with status := .completed, completed_at := some t,
                                results := some (.research
                                  { research := content, model_used := a.research_model,
                                    timestamp := t, tokens_used := usage }) } },
           .success rid
             { research := content, model_used := a.research_model,
               timestamp := t, tokens_used := usage }
             ((t : Int) - (ta : Int))) := by
  simp [execute_approved_research, h, hs, conduct_research, ha]

theorem execute_conduct_error (a : ResearchAgent) (rid : String) (t : Nat)
    (outcome : ApiOutcome) (e : String) (r : ResearchRequest)
    (h : dictGet a.pending_requests rid = some r)
    (hs : r.status = ResearchStatus.approved)
    (he : conduct_research a.research_model t outcome = .error e) :
    execute_approved_research a rid t outcome =
      .ok ({ a with pending_requests := dictSet a.pending_requests rid
                       { r with status := .failed, results := some (.error e) } },
           .failed rid e) := by
  simp [execute_approved_research, h, hs, he]

theorem execute_no_approved_at (a : ResearchAgent) (rid : String) (t : Nat)
    (content : String) (usage : TokenUsage) (r : ResearchRequest)
    (h : dictGet a.pending_requests rid = some r)
    (hs : r.status = ResearchStatus.approved)
    (ha : r.approved_at = none) :
    execute_approved_research a rid t (.ok content usage) =
      .ok ({ a with pending_requests := dictSet a.pending_requests rid
                       { r with status := .failed, completed_at := some t,
                                results := some (.error datetimeNoneSubMsg) } },
           .failed rid datetimeNoneSubMsg) := by
  simp [execute_approved_research, h, hs, conduct_research, ha]

theorem statusReach_refl (s : ResearchStatus) : StatusReach s s :=
  Relation.ReflTransGen.refl

theorem statusReach_trans {a b c : ResearchStatus} (h1 : StatusReach a b)
    (h2 : StatusReach b c) : StatusReach a c :=
  Relation.ReflTransGen.trans h1 h2

theorem statusReach_prop_approved :
    StatusReach ResearchStatus.proposed ResearchStatus.approved :=
  Relation.ReflTransGen.single StatusStep.approve

theorem statusReach_prop_denied :
    StatusReach ResearchStatus.proposed ResearchStatus.denied :=
  Relation.ReflTransGen.single StatusStep.deny

theorem statusReach_app_completed :
    StatusReach ResearchStatus.approved ResearchStatus.completed :=
  Relation.ReflTransGen.tail (Relation.ReflTransGen.single StatusStep.start)
    StatusStep.complete

theorem statusReach_app_failed :
    StatusReach ResearchStatus.approved ResearchStatus.failed :=
  Relation.ReflTransGen.tail (Relation.ReflTransGen.single StatusStep.start)
    StatusStep.fail

/-- One operation either leaves an id's entry unchanged, advances an
existing entry along the transition graph, or (for a fresh `propose`)
creates a new entry in the `proposed` state. -/
theorem applyOp_get_cases (a : ResearchAgent) (op : AgentOp)
    (hfresh : opFresh a op) (rid : String) :
    dictGet (applyOp a op).pending_requests rid = dictGet a.pending_requests rid ∨
    (∃ r rm, dictGet a.pending_requests rid = some r ∧
       dictGet (applyOp a op).pending_requests rid = some rm ∧
       StatusReach r.status rm.status ∧ SameProposalFields r rm) ∨
    (dictGet a.pending_requests rid = none ∧
       ∃ rm, dictGet (applyOp a op).pending_requests rid = some rm ∧
         rm.status = ResearchStatus.proposed) := by
  cases op with
  | propose pid now q c s =>
    simp only [opFresh] at hfresh
    by_cases hrid : rid = pid
    · subst hrid
      right; right
      refine ⟨hfresh, (propose_research a rid now q c s).2, ?_, rfl⟩
      simp [applyOp, propose_research, dictGet_set_self]
    · left
      simp [applyOp, propose_research, dictGet_set_ne _ _ _ _ hrid]
  | approve oid t =>
    rcases h : dictGet a.pending_requests oid with _ | r
    · left; simp [applyOp, approve_get_none a oid t h]
    · by_cases hst : r.status = ResearchStatus.proposed
      · by_cases hrid : rid = oid
        · subst hrid
          right; left
          refine ⟨r, { r with status := .approved, approved_at := some t }, h, ?_, ?_, ?_⟩
          · simp [applyOp, approve_proposed a rid t r h hst, dictGet_set_self]
          · rw [hst]; exact statusReach_prop_approved
          · simp [SameProposalFields]
        · left
          simp [applyOp, approve_proposed a oid t r h hst, dictGet_set_ne _ _ _ _ hrid]
      · left; simp [applyOp, approve_wrong_state a oid t r h hst]
  | deny oid reason =>
    rcases h : dictGet a.pending_requests oid with _ | r
    · left; simp [applyOp, deny_get_none a oid reason h]
    · by_cases hst : r.status = ResearchStatus.proposed
      · obtain ⟨res, hres⟩ := deny_proposed a oid reason r h hst
        by_cases hrid : rid = oid
        · subst hrid
          right; left
          refine ⟨r, { r with status := .denied, results := res }, h, ?_, ?_, ?_⟩
          · simp [applyOp, hres, dictGet_set_self]
          · rw [hst]; exact statusReach_prop_denied
          · simp [SameProposalFields]
        · left
          simp [applyOp, hres, dictGet_set_ne _ _ _ _ hrid]
      · left; simp [applyOp, deny_wrong_state a oid reason r h hst]
  | execute oid t outcome =>
    rcases h : dictGet a.pending_requests oid with _ | r
    · left; simp [applyOp, execute_get_none a oid t outcome h]
    · by_cases hst : r.status = ResearchStatus.approved
      · cases outcome with
        | ok content usage =>
          rcases ha : r.approved_at with _ | ta
          · by_cases hrid : rid = oid
            · subst hrid
              right; left
              refine ⟨r, { r with status := .failed, completed_at := some t, results := some (.error datetimeNoneSubMsg) }, h, ?_, ?_, ?_⟩
              · simp [applyOp, execute_no_approved_at a rid t content usage r h hst ha,
                      dictGet_set_self]
              · rw [hst]; exact statusReach_app_failed
              · simp [SameProposalFields]
            · left
              simp [applyOp, execute_no_approved_at a oid t content usage r h hst ha,
                    dictGet_set_ne _ _ _ _ hrid]
          · by_cases hrid : rid = oid
            · subst hrid
              right; left
              refine ⟨r, { r with status := .completed, completed_at := some t, results := some (.research { research := content, model_used := a.research_model, timestamp := t, tokens_used := usage }) }, h, ?_, ?_, ?_⟩
              · simp [applyOp, execute_success a rid t ta content usage r h hst ha,
                      dictGet_set_self]
              · rw [hst]; exact statusReach_app_completed
              · simp [SameProposalFields]
            · left
              simp [applyOp, execute_success a oid t ta content usage r h hst ha,
                    dictGet_set_ne _ _ _ _ hrid]
        | httpError e0 =>
          have he : conduct_research a.research_model t (.httpError e0) =
              .error ("Research API error: " ++ e0) := rfl
          by_cases hrid : rid = oid
          · subst hrid
            right; left
            refine ⟨r, { r with status := .failed, results := some (.error ("Research API error: " ++ e0)) }, h, ?_, ?_, ?_⟩
            · simp [applyOp, execute_conduct_error a rid t _ _ r h hst he, dictGet_set_self]
            · rw [hst]; exact statusReach_app_failed
            · simp [SameProposalFields]
          · left
            simp [applyOp, execute_conduct_error a oid t _ _ r h hst he,
                  dictGet_set_ne _ _ _ _ hrid]
        | transportError m =>
          have he : conduct_research a.research_model t (.transportError m) =
              .error m := rfl
          by_cases hrid : rid = oid
          · subst hrid
            right; left
            refine ⟨r, { r with status := .failed, results := some (.error m) }, h, ?_, ?_, ?_⟩
            · simp [applyOp, execute_conduct_error a rid t _ _ r h hst he, dictGet_set_self]
            · rw [hst]; exact statusReach_app_failed
            · simp [SameProposalFields]
          · left
            simp [applyOp, execute_conduct_error a oid t _ _ r h hst he,
                  dictGet_set_ne _ _ _ _ hrid]
      · left; simp [applyOp, execute_wrong_state a oid t outcome r h hst]

/-- Along any admissible operation sequence, an existing entry's status
only advances along the transition graph, and an entry created during the
sequence has a status reachable from `proposed`. -/
theorem runOps_status_reach (ops : List AgentOp) :
    ∀ (a : ResearchAgent), FreshProposals a ops →
      ∀ (rid : String) (r' : ResearchRequest),
        dictGet (runOps a ops).pending_requests rid = some r' →
        (∀ r, dictGet a.pending_requests rid = some r →
           StatusReach r.status r'.status) ∧
        (dictGet a.pending_requests rid = none →
           StatusReach ResearchStatus.proposed r'.status) := by
  induction ops with
  | nil =>
    intro a _ rid r' h'
    have h0 : dictGet a.pending_requests rid = some r' := h'
    constructor
    · intro r h
      rw [h] at h0
      injection h0 with hh
      rw [hh]
      exact statusReach_refl _
    · intro h
      rw [h] at h0
      cases h0
  | cons op rest ih =>
    intro a hfresh rid r' h'
    obtain ⟨hf1, hf2⟩ := hfresh
    obtain ⟨p1, p2⟩ := ih (applyOp a op) hf2 rid r' h'
    rcases applyOp_get_cases a op hf1 rid with heq |
      ⟨r0, rm, hr0, hrm, hreach, _⟩ | ⟨hnone, rm, hrm, hstat⟩
    · constructor
      · intro r h
        exact p1 r (heq.trans h)
      · intro h
        exact p2 (heq.trans h)
    · constructor
      · intro r h
        rw [h] at hr0
        injection hr0 with hh
        exact statusReach_trans (hh ▸ hreach) (p1 rm hrm)
      · intro h
        rw [h] at hr0
        cases hr0
    · constructor
      · intro r h
        rw [h] at hnone
        cases hnone
      · intro _
        have hrr := p1 rm hrm
        rw [hstat] at hrr
        exact hrr

theorem sameProposalFields_refl (r : ResearchRequest) : SameProposalFields r r :=
  ⟨rfl, rfl, rfl, rfl, rfl, rfl, rfl⟩

/-- A non-`propose` operation preserves every proposal-time field of every
entry it keeps in the registry. -/
theorem applyOp_frame (a : ResearchAgent) (op : AgentOp)
    (hop : op.isPropose = false) (rid : String) (r r' : ResearchRequest)
    (h : dictGet a.pending_requests rid = some r)
    (h' : dictGet (applyOp a op).pending_requests rid = some r') :
    SameProposalFields r r' := by
  have hfresh : opFresh a op := by
    cases op with
    | propose pid now q c s => simp [AgentOp.isPropose] at hop
    | approve oid t => trivial
    | deny oid reason => trivial
    | execute oid t outcome => trivial
  rcases applyOp_get_cases a op hfresh rid with heq |
    ⟨r0, rm, hr0, hrm, _, hframe⟩ | ⟨hnone, _, _, _⟩
  · rw [heq, h] at h'
    injection h' with hh
    subst hh
    exact sameProposalFields_refl r
  · rw [h] at hr0
    injection hr0 with hh
    rw [hrm] at h'
    injection h' with hh'
    subst hh
    subst hh'
    exact hframe
  · rw [h] at hnone
    cases hnone

theorem foldl_bullets (l : List Suggestion) (init : String) :
    l.foldl (fun acc s => acc ++ "- " ++ s.suggestion ++ "\n") init
      = init ++ bulletList l := by
  induction l generalizing init with
  | nil => simp [bulletList]
  | cons s rest ih =>
    simp only [List.foldl, bulletList]
    rw [ih]
    simp [String.append_assoc]

theorem refine_eq_concat (query : String) (context : String)
    (suggestions : List Suggestion) :
    refine_query_with_suggestions query context suggestions
      = query ++ "\n\nSpecific areas to investigate based on advisor input:\n"
        ++ bulletList suggestions := by
  simp only [refine_query_with_suggestions]
  rw [foldl_bullets]

theorem bulletList_contains (l : List Suggestion) (s : Suggestion) (hs : s ∈ l) :
    ∃ pre post : String, bulletList l = pre ++ s.suggestion ++ post := by
  induction l with
  | nil => cases hs
  | cons s0 rest ih =>
    cases hs with
    | head =>
      refine ⟨"- ", "\n" ++ bulletList rest, ?_⟩
      simp [bulletList, String.append_assoc]
    | tail _ h =>
      obtain ⟨pre, post, hp⟩ := ih h
      refine ⟨"- " ++ s0.suggestion ++ "\n" ++ pre, post, ?_⟩
      simp [bulletList, hp, String.append_assoc]

theorem bulletList_eq_of_map (l l' : List Suggestion)
    (h : l.map Suggestion.suggestion = l'.map Suggestion.suggestion) :
    bulletList l = bulletList l' := by
  induction l generalizing l' with
  | nil =>
    cases l' with
    | nil => rfl
    | cons s' rest' => simp at h
  | cons s rest ih =>
    cases l' with
    | nil => simp at h
    | cons s' rest' =>
      simp only [List.map, List.cons.injEq] at h
      obtain ⟨h1, h2⟩ := h
      simp [bulletList, h1, ih rest' h2]

/-- C5: for every well-formed input (any query string, any context string,
and any sequence of suggestion records each carrying an advisor and a
suggestion text), `propose_research` never fails: it always returns a new
request whose status is `proposed`, with a generated id, a computed
`refined_query` and `cost_estimate`, and stores that request in the
registry under its id. (Totality is structural: the embedding returns a
value on every input, matching the absence of any failure path in the
source.) -/
theorem propose_total_and_registers :
    ∀ (agent : ResearchAgent) (request_id : String) (now : Nat)
      (query context : String) (suggestions : List Suggestion),
      (propose_research agent request_id now query context suggestions).2.status
          = ResearchStatus.proposed ∧
      (propose_research agent request_id now query context suggestions).2.id
          = request_id ∧
      (propose_research agent request_id now query context suggestions).2.refined_query
          = some (refine_query_with_suggestions query context suggestions) ∧
      (propose_research agent request_id now query context suggestions).2.cost_estimate
          = some (((pyWordCount (refine_query_with_suggestions query context suggestions) : ℚ)
                    * 3 / 1000) * agent.cost_per_1k_tokens) ∧
      dictGet (propose_research agent request_id now query context suggestions).1.pending_requests
          request_id
        = some (propose_research agent request_id now query context suggestions).2 := by
  intro agent request_id now query context suggestions
  refine ⟨rfl, rfl, rfl, rfl, ?_⟩
  simp [propose_research, dictGet_set_self]

/-- C6: for every proposal, `refined_query` equals the original query text
concatenated (after the fixed header line) with a bulleted list containing
each suggestion's text in input order; the advisor attribution does not
appear in the bulleted list (the result depends only on the suggestion
texts); consequently `refined_query` contains both the original query text
and every suggestion text. -/
theorem refined_query_construction :
    ∀ (query context : String) (suggestions : List Suggestion),
      refine_query_with_suggestions query context suggestions
          = query ++ "\n\nSpecific areas to investigate based on advisor input:\n"
            ++ bulletList suggestions ∧
      ContainsText (refine_query_with_suggestions query context suggestions) query ∧
      (∀ s ∈ suggestions,
        ContainsText (refine_query_with_suggestions query context suggestions)
          s.suggestion) ∧
      (∀ suggestions' : List Suggestion,
        suggestions.map Suggestion.suggestion = suggestions'.map Suggestion.suggestion →
        refine_query_with_suggestions query context suggestions
          = refine_query_with_suggestions query context suggestions') := by
  intro query context suggestions
  refine ⟨refine_eq_concat query context suggestions, ?_, ?_, ?_⟩
  · refine ⟨"", "\n\nSpecific areas to investigate based on advisor input:\n"
        ++ bulletList suggestions, ?_⟩
    rw [refine_eq_concat]
    simp [String.append_assoc]
  · intro s hs
    obtain ⟨pre, post, hp⟩ := bulletList_contains suggestions s hs
    refine ⟨query ++ "\n\nSpecific areas to investigate based on advisor input:\n"
        ++ pre, post, ?_⟩
    rw [refine_eq_concat, hp]
    simp [String.append_assoc]
  · intro suggestions' hmap
    rw [refine_eq_concat, refine_eq_concat,
        bulletList_eq_of_map suggestions suggestions' hmap]

/-- C7: for every proposal, `cost_estimate` equals
(word-count of `refined_query` × 3 ÷ 1000) × `cost_per_1k_tokens`, and the
agent built by `__init__` carries the fixed price constant `0.008`, so for
it the estimate is (words × 3 / 1000) × 0.008, computed at proposal time.
(Python float arithmetic is modelled exactly over `ℚ`.) -/
theorem cost_estimate_formula :
    ∀ (key request_id : String) (now : Nat) (query context : String)
      (suggestions : List Suggestion),
      (ResearchAgent.init key).cost_per_1k_tokens = 0.008 ∧
      (propose_research (ResearchAgent.init key) request_id now query context
          suggestions).2.cost_estimate
        = some (((pyWordCount (refine_query_with_suggestions query context suggestions) : ℚ)
                  * 3 / 1000) * 0.008) ∧
      (∀ agent : ResearchAgent,
        (propose_research agent request_id now query context suggestions).2.cost_estimate
          = some (((pyWordCount (refine_query_with_suggestions query context suggestions) : ℚ)
                    * 3 / 1000) * agent.cost_per_1k_tokens)) :=
  fun _ _ _ _ _ _ => ⟨rfl, rfl, fun _ => rfl⟩

/-- C9: `get_pending_requests` returns exactly the registered requests
whose status is `proposed` (membership characterisation over the
registry's values); the embedding is a pure function of the unmodified
agent, so two consecutive calls with no intervening mutation are the same
list. -/
theorem get_pending_requests_exact :
    ∀ agent : ResearchAgent,
      (∀ r : ResearchRequest,
        r ∈ get_pending_requests agent ↔
          (r ∈ agent.pending_requests.map Prod.snd ∧
           r.status = ResearchStatus.proposed)) ∧
      get_pending_requests agent = get_pending_requests agent := by
  intro agent
  refine ⟨fun r => ?_, rfl⟩
  simp [get_pending_requests, List.mem_filter]

/-- C10 (implicit): the `context` argument of `propose_research` does not
influence `refined_query` or `cost_estimate` — two calls differing only in
`context` produce equal `refined_query` and equal `cost_estimate`; the
context is only stored verbatim as `original_context`. -/
theorem context_noninterference :
    ∀ (agent : ResearchAgent) (request_id : String) (now : Nat) (query : String)
      (c1 c2 : String) (suggestions : List Suggestion),
      (propose_research agent request_id now query c1 suggestions).2.refined_query
        = (propose_research agent request_id now query c2 suggestions).2.refined_query ∧
      (propose_research agent request_id now query c1 suggestions).2.cost_estimate
        = (propose_research agent request_id now query c2 suggestions).2.cost_estimate ∧
      (propose_research agent request_id now query c1 suggestions).2.original_context
        = c1 :=
  fun _ _ _ _ _ _ _ => ⟨rfl, rfl, rfl⟩

/-- C2: `execute_approved_research` raises a `ValueError` ("not found" for
an unknown id; "is not approved" naming the current status for a
wrong-state request) for every precondition violation, leaving the
request's status unchanged (a still-`proposed` request stays `proposed`);
whereas an exception from the completion call is caught: the request moves
to `failed` with `results` containing the error description, `completed_at`
is not assigned, and the call returns `{status: "failed", request_id,
error}` instead of raising. -/
theorem execute_error_handling :
    (∀ (a : ResearchAgent) (rid : String) (t : Nat) (outcome : ApiOutcome),
       dictGet a.pending_requests rid = none →
       execute_approved_research a rid t outcome =
         .error ("Request " ++ rid ++ " not found")) ∧
    (∀ (a : ResearchAgent) (rid : String) (t : Nat) (outcome : ApiOutcome)
       (r : ResearchRequest),
       dictGet a.pending_requests rid = some r →
       r.status ≠ ResearchStatus.approved →
       execute_approved_research a rid t outcome =
         .error ("Request " ++ rid ++ " is not approved. Status: " ++ r.status.pyStr) ∧
       dictGet (applyOp a (.execute rid t outcome)).pending_requests rid = some r) ∧
    (∀ (a : ResearchAgent) (rid : String) (t : Nat) (outcome : ApiOutcome)
       (e : String) (r : ResearchRequest),
       dictGet a.pending_requests rid = some r →
       r.status = ResearchStatus.approved →
       conduct_research a.research_model t outcome = .error e →
       ∃ a' : ResearchAgent,
         execute_approved_research a rid t outcome = .ok (a', .failed rid e) ∧
         dictGet a'.pending_requests rid =
           some { r with status := .failed, results := some (.error e) } ∧
         ({ r with status := .failed, results := some (.error e) } : ResearchRequest).completed_at
           = r.completed_at) := by
  refine ⟨?_, ?_, ?_⟩
  · intro a rid t outcome h
    exact execute_get_none a rid t outcome h
  · intro a rid t outcome r h hs
    refine ⟨execute_wrong_state a rid t outcome r h hs, ?_⟩
    simp [applyOp, execute_wrong_state a rid t outcome r h hs, h]
  · intro a rid t outcome e r h hs he
    refine ⟨_, execute_conduct_error a rid t outcome e r h hs he, ?_, rfl⟩
    simp [dictGet_set_self]

/-- C3: `execute_approved_research` on an approved request whose completion
call returns text ends with the request `completed`, `completed_at` set and
≥ `approved_at` (under clock monotonicity), `results` holding the returned
text verbatim under `research` together with the model identifier, a
timestamp and the pass-through token usage, and returns
`{status: "success", request_id, results, execution_time}` where
`execution_time` is `completed_at - approved_at` in seconds. -/
theorem execute_success_behavior :
    ∀ (a : ResearchAgent) (rid : String) (t ta : Nat) (content : String)
      (usage : TokenUsage) (r : ResearchRequest),
      dictGet a.pending_requests rid = some r →
      r.status = ResearchStatus.approved →
      r.approved_at = some ta →
      ta ≤ t →
      ∃ a' : ResearchAgent,
        execute_approved_research a rid t (.ok content usage) =
          .ok (a', .success rid
            { research := content, model_used := a.research_model,
              timestamp := t, tokens_used := usage }
            ((t : Int) - (ta : Int))) ∧
        dictGet a'.pending_requests rid =
          some { r with status := .completed, completed_at := some t, results := some (.research { research := content, model_used := a.research_model, timestamp := t, tokens_used := usage }) } ∧
        (ta : Int) ≤ (t : Int) := by
  intro a rid t ta content usage r h hs ha hle
  refine ⟨_, execute_success a rid t ta content usage r h hs ha, ?_, ?_⟩
  · simp [dictGet_set_self]
  · exact_mod_cast hle

/-- C4: `approve_research` and `deny_research` never raise (the embedding
is total); each returns `true` exactly when the id is registered and the
request is currently `proposed`, `false` otherwise; approving twice
returns `true` then `false`, and denying an already-approved request
returns `false` and leaves its status `approved`. -/
theorem approve_deny_success_flag :
    (∀ (a : ResearchAgent) (rid : String) (t : Nat),
       (approve_research a rid t).2 = true ↔
         ∃ r, dictGet a.pending_requests rid = some r ∧
           r.status = ResearchStatus.proposed) ∧
    (∀ (a : ResearchAgent) (rid : String) (reason : Option String),
       (deny_research a rid reason).2 = true ↔
         ∃ r, dictGet a.pending_requests rid = some r ∧
           r.status = ResearchStatus.proposed) ∧
    (∀ (a : ResearchAgent) (rid : String) (t t' : Nat) (reason : Option String)
       (r : ResearchRequest),
       dictGet a.pending_requests rid = some r →
       r.status = ResearchStatus.proposed →
       (approve_research a rid t).2 = true ∧
       (approve_research (approve_research a rid t).1 rid t').2 = false ∧
       (deny_research (approve_research a rid t).1 rid reason).2 = false ∧
       dictGet (deny_research (approve_research a rid t).1 rid reason).1.pending_requests
           rid
         = some { r with status := .approved, approved_at := some t }) := by
  refine ⟨?_, ?_, ?_⟩
  · intro a rid t
    constructor
    · intro hb
      rcases hg : dictGet a.pending_requests rid with _ | r
      · rw [approve_get_none a rid t hg] at hb; simp at hb
      · by_cases hst : r.status = ResearchStatus.proposed
        · exact ⟨r, rfl, hst⟩
        · rw [approve_wrong_state a rid t r hg hst] at hb; simp at hb
    · rintro ⟨r, hg, hst⟩
      rw [approve_proposed a rid t r hg hst]
  · intro a rid reason
    constructor
    · intro hb
      rcases hg : dictGet a.pending_requests rid with _ | r
      · rw [deny_get_none a rid reason hg] at hb; simp at hb
      · by_cases hst : r.status = ResearchStatus.proposed
        · exact ⟨r, rfl, hst⟩
        · rw [deny_wrong_state a rid reason r hg hst] at hb; simp at hb
    · rintro ⟨r, hg, hst⟩
      obtain ⟨res, hres⟩ := deny_proposed a rid reason r hg hst
      rw [hres]
  · intro a rid t t' reason r hg hst
    have h1 := approve_proposed a rid t r hg hst
    have hg1 : dictGet (approve_research a rid t).1.pending_requests rid
        = some { r with status := .approved, approved_at := some t } := by
      rw [h1]
      simp [dictGet_set_self]
    have hst1 : ({ r with status := .approved, approved_at := some t } : ResearchRequest).status ≠ ResearchStatus.proposed := by
      simp
    refine ⟨by rw [h1], ?_, ?_, ?_⟩
    · rw [approve_wrong_state _ rid t' _ hg1 hst1]
    · rw [deny_wrong_state _ rid reason _ hg1 hst1]
    · rw [deny_wrong_state _ rid reason _ hg1 hst1]
      exact hg1

/-- C8: the fields `id`, `query`, `original_context`, `advisor_suggestions`,
`refined_query`, `created_at` and `cost_estimate` of a request are set at
proposal time and never modified by `approve_research`, `deny_research` or
`execute_approved_research`; those operations only write `status`,
`approved_at`, `completed_at` and `results`. -/
theorem proposal_fields_immutable :
    ∀ (a : ResearchAgent) (oid rid : String) (t : Nat) (reason : Option String)
      (outcome : ApiOutcome) (r r' : ResearchRequest),
      dictGet a.pending_requests rid = some r →
      ((dictGet (approve_research a oid t).1.pending_requests rid = some r' →
          SameProposalFields r r') ∧
       (dictGet (deny_research a oid reason).1.pending_requests rid = some r' →
          SameProposalFields r r') ∧
       (∀ (a' : ResearchAgent) (resp : ExecuteResponse),
          execute_approved_research a oid t outcome = .ok (a', resp) →
          dictGet a'.pending_requests rid = some r' →
          SameProposalFields r r')) := by
  intro a oid rid t reason outcome r r' h
  refine ⟨?_, ?_, ?_⟩
  · intro h'
    exact applyOp_frame a (.approve oid t) rfl rid r r' h h'
  · intro h'
    exact applyOp_frame a (.deny oid reason) rfl rid r r' h h'
  · intro a' resp hexec h'
    have hmid : applyOp a (.execute oid t outcome) = a' := by
      simp [applyOp, hexec]
    rw [← hmid] at h'
    exact applyOp_frame a (.execute oid t outcome) rfl rid r r' h h'

/-- C1: for every sequence of propose/approve/deny/execute operations (with
fresh ids for each propose), each request's status only ever changes along
the transition graph proposed→approved→in_progress→(completed|failed) and
proposed→denied, starting at `proposed`; an operation invoked on a request
that is not in that operation's exact expected prior state leaves the
status unchanged and reports failure to the caller (boolean `false` for
approve/deny, a raised `ValueError` for execute), never a silent
overwrite. -/
theorem status_transitions_follow_graph :
    (∀ (a : ResearchAgent) (ops : List AgentOp), FreshProposals a ops →
       ∀ (rid : String) (r' : ResearchRequest),
         dictGet (runOps a ops).pending_requests rid = some r' →
         (∀ r, dictGet a.pending_requests rid = some r →
            StatusReach r.status r'.status) ∧
         (dictGet a.pending_requests rid = none →
            StatusReach ResearchStatus.proposed r'.status)) ∧
    (∀ (a : ResearchAgent) (rid : String) (t : Nat) (r : ResearchRequest),
       dictGet a.pending_requests rid = some r →
       r.status ≠ ResearchStatus.proposed →
       approve_research a rid t = (a, false)) ∧
    (∀ (a : ResearchAgent) (rid : String) (reason : Option String)
       (r : ResearchRequest),
       dictGet a.pending_requests rid = some r →
       r.status ≠ ResearchStatus.proposed →
       deny_research a rid reason = (a, false)) ∧
    (∀ (a : ResearchAgent) (rid : String) (t : Nat) (outcome : ApiOutcome)
       (r : ResearchRequest),
       dictGet a.pending_requests rid = some r →
       r.status ≠ ResearchStatus.approved →
       execute_approved_research a rid t outcome =
         .error ("Request " ++ rid ++ " is not approved. Status: " ++ r.status.pyStr) ∧
       applyOp a (.execute rid t outcome) = a) := by
  refine ⟨?_, ?_, ?_, ?_⟩
  · intro a ops hfresh rid r' h'
    exact runOps_status_reach ops a hfresh rid r' h'
  · intro a rid t r h hs
    exact approve_wrong_state a rid t r h hs
  · intro a rid reason r h hs
    exact deny_wrong_state a rid reason r h hs
  · intro a rid t outcome r h hs
    refine ⟨execute_wrong_state a rid t outcome r h hs, ?_⟩
    simp [applyOp, execute_wrong_state a rid t outcome r h hs]

/-- Concrete request used by the witness scenarios (mirrors the spec's
round-trip scenario). -/
def wReq : ResearchRequest :=
  { id := "r1"
    query := "pricing strategy"
    original_context := "SaaS founder"
    advisor_suggestions := [{ advisor := "alex", suggestion := "check CAC payback" }]
    refined_query := some "pricing strategy refined"
    status := .proposed
    created_at := 0 }

/-- Agent holding one freshly proposed request. -/
def wAgent : ResearchAgent :=
  { api_key := "key", pending_requests := [("r1", wReq)] }

/-- Approve at time 5, then execute at time 9 with a successful completion. -/
def wOps : List AgentOp :=
  [.approve "r1" 5, .execute "r1" 9 (.ok "RESEARCH BRIEF" [("total_tokens", 42)])]

/-- The results dict stored by the successful execution of `wOps`. -/
def wResults : ResearchResults :=
  { research := "RESEARCH BRIEF"
    model_used := "openai/gpt-5-nano"
    timestamp := 9
    tokens_used := [("total_tokens", 42)] }

/-- The request after running `wOps`. -/
def wFinal : ResearchRequest :=
  { wReq with
      status := .completed
      approved_at := some 5
      completed_at := some 9
      results := some (.research wResults) }

/-- The witness request once approved at time 5. -/
def wReqApproved : ResearchRequest :=
  { wReq with status := .approved, approved_at := some 5 }

/-- Agent holding one approved request. -/
def wAgentApproved : ResearchAgent :=
  { api_key := "key", pending_requests := [("r1", wReqApproved)] }

/-- Witness for C1: on the concrete run `wOps` the request moves from
`proposed` to `completed`, along the transition graph. -/
theorem status_transitions_follow_graph_witness :
    StatusReach ResearchStatus.proposed ResearchStatus.completed :=
  (status_transitions_follow_graph.1 wAgent wOps
      ⟨True.intro, True.intro, True.intro⟩ "r1" wFinal rfl).1 wReq rfl

/-- Witness for C2: executing an unknown id on the concrete agent yields
the "not found" `ValueError`. -/
theorem execute_error_handling_witness :
    execute_approved_research wAgent "zz" 3 (.ok "x" []) =
      .error "Request zz not found" :=
  execute_error_handling.1 wAgent "zz" 3 (.ok "x" []) rfl

/-- Witness for C3: executing the concrete approved request at time 9
succeeds with the stored brief and execution time 4. -/
theorem execute_success_behavior_witness :
    ∃ a' : ResearchAgent,
      execute_approved_research wAgentApproved "r1" 9 (.ok "RESEARCH BRIEF" []) =
        .ok (a', .success "r1"
          { research := "RESEARCH BRIEF", model_used := wAgentApproved.research_model,
            timestamp := 9, tokens_used := [] }
          (((9 : Nat) : Int) - ((5 : Nat) : Int))) ∧
      dictGet a'.pending_requests "r1" =
        some { wReqApproved with status := .completed, completed_at := some 9, results := some (.research { research := "RESEARCH BRIEF", model_used := wAgentApproved.research_model, timestamp := 9, tokens_used := [] }) } ∧
      (((5 : Nat) : Int) ≤ ((9 : Nat) : Int)) :=
  execute_success_behavior wAgentApproved "r1" 9 5 "RESEARCH BRIEF" [] wReqApproved
    rfl rfl rfl (by decide)

/-- Witness for C4: approve succeeds once, re-approve and deny-after-approve
fail, and the status stays `approved`. -/
theorem approve_deny_success_flag_witness :
    (approve_research wAgent "r1" 5).2 = true ∧
    (approve_research (approve_research wAgent "r1" 5).1 "r1" 6).2 = false ∧
    (deny_research (approve_research wAgent "r1" 5).1 "r1" (some "no")).2 = false ∧
    dictGet (deny_research (approve_research wAgent "r1" 5).1 "r1"
        (some "no")).1.pending_requests "r1"
      = some { wReq with status := .approved, approved_at := some 5 } :=
  approve_deny_success_flag.2.2 wAgent "r1" 5 6 (some "no") wReq rfl rfl

/-- Witness for C6: the spec's example — the refined query contains both
the original query text and the suggestion text. -/
theorem refined_query_construction_witness :
    ContainsText (refine_query_with_suggestions "pricing strategy" "SaaS founder"
      [{ advisor := "alex", suggestion := "check CAC payback" }]) "pricing strategy" ∧
    ContainsText (refine_query_with_suggestions "pricing strategy" "SaaS founder"
      [{ advisor := "alex", suggestion := "check CAC payback" }]) "check CAC payback" :=
  ⟨(refined_query_construction "pricing strategy" "SaaS founder"
      [{ advisor := "alex", suggestion := "check CAC payback" }]).2.1,
   (refined_query_construction "pricing strategy" "SaaS founder"
      [{ advisor := "alex", suggestion := "check CAC payback" }]).2.2.1
      { advisor := "alex", suggestion := "check CAC payback" } (by simp)⟩

/-- Witness for C8: approving the concrete request preserves every
proposal-time field. -/
theorem proposal_fields_immutable_witness :
    SameProposalFields wReq { wReq with status := .approved, approved_at := some 5 } :=
  (proposal_fields_immutable wAgent "r1" "r1" 5 none (.ok "" []) wReq
      { wReq with status := .approved, approved_at := some 5 } rfl).1 rfl
